import Mathlib

/-!
Shallow embedding of the API-key issuance and metered-access gateway
(`api.py`): an SQLite-backed FastAPI service with two tables,
`api_keys (api_key PRIMARY KEY, plan, is_active, created_at)` and
`usage_counters (api_key, day, count, PRIMARY KEY (api_key, day))`.

The two tables are modelled as association lists of rows; a SQL
`SELECT ... WHERE <pk>=? ... fetchone()` is `List.find?`, an
`UPDATE ... WHERE` is a `List.map` that rewrites the matching rows, an
`INSERT` appends a row, and `INSERT OR IGNORE` appends only when no row
with the primary key exists.  Values that the source reads from the
environment (the free/pro daily limits) are threaded as an explicit
`Config`; the current UTC day string produced by `utc_day_str()` and the
timestamps produced by `datetime.now(...)` are passed as parameters.
`raise HTTPException(status, detail)` becomes `Except.error ⟨status, detail⟩`.
-/

namespace ProApi

/-- A row of the `api_keys` table.  `plan` is a nullable TEXT column
(`DEFAULT 'free'`), `is_active` an INTEGER (`DEFAULT 1`). -/
structure KeyRow where
  api_key : String
  plan : Option String
  is_active : Int
  created_at : String
deriving DecidableEq, Repr

/-- A row of the `usage_counters` table. -/
structure UsageRow where
  api_key : String
  day : String
  count : Int
deriving DecidableEq, Repr

/-- The durable store: both tables of the SQLite database. -/
structure DB where
  api_keys : List KeyRow
  usage_counters : List UsageRow
deriving DecidableEq, Repr

/-- Environment-provided limits: `FREE_LIMIT_PER_DAY` (default 25) and
`PRO_LIMIT_PER_DAY` (default 10000). -/
structure Config where
  FREE_LIMIT_PER_DAY : Int
  PRO_LIMIT_PER_DAY : Int
deriving DecidableEq, Repr

/-- The `raise HTTPException(status, detail)` outcome. -/
structure HTTPError where
  status : Nat
  detail : String
deriving DecidableEq, Repr

/-- The dict returned by `require_active_and_rate_limit` on success. -/
structure RateMeta where
  plan : String
  used_today : Int
  limit_today : Int
deriving DecidableEq, Repr

/-- The `WHERE api_key=?` clause over `api_keys` rows. -/
def keyMatch (api_key : String) (r : KeyRow) : Bool :=
  r.api_key == api_key

/-- The `WHERE api_key=? AND day=?` clause over `usage_counters` rows. -/
def usageMatch (api_key day : String) (r : UsageRow) : Bool :=
  r.api_key == api_key && r.day == day

/-- `get_key_row`: `SELECT api_key, plan, is_active FROM api_keys WHERE api_key=?`
followed by `fetchone()`. -/
def get_key_row (d : DB) (api_key : String) : Option KeyRow :=
  d.api_keys.find? (keyMatch api_key)

/-- `SELECT ... FROM usage_counters WHERE api_key=? AND day=?` / `fetchone()`. -/
def get_usage_row (d : DB) (api_key day : String) : Option UsageRow :=
  d.usage_counters.find? (usageMatch api_key day)

/-- `ensure_key_exists`: `INSERT OR IGNORE INTO api_keys(...) VALUES(?, 'free', 1, ?)`.
`now` is the `datetime.now(timezone.utc).isoformat()` timestamp. -/
def ensure_key_exists (d : DB) (api_key now : String) : DB :=
  match get_key_row d api_key with
  | some _ => d
  | none => { d with api_keys := d.api_keys ++ [⟨api_key, some "free", 1, now⟩] }

/-- The per-row effect of `UPDATE api_keys SET plan='pro', is_active=1 WHERE api_key=?`. -/
def setPro (api_key : String) (r : KeyRow) : KeyRow :=
  if keyMatch api_key r then { r with plan := some "pro", is_active := 1 } else r

/-- `upgrade_api_key_to_pro`:
`UPDATE api_keys SET plan='pro', is_active=1 WHERE api_key=?`. -/
def upgrade_api_key_to_pro (d : DB) (api_key : String) : DB :=
  { d with api_keys := d.api_keys.map (setPro api_key) }

/-- `increment_usage`: `INSERT OR IGNORE ... VALUES(?, ?, 0)`, then
`UPDATE usage_counters SET count = count + 1 WHERE api_key=? AND day=?`,
then `SELECT count ...` returning the post-increment value.  The `day`
argument stands for the `utc_day_str()` computed inside the source
function.  The final `fetchone()` cannot return no row (the row was just
inserted or updated); the `0` in that branch is dead code.  `bump` is the
per-row effect of the UPDATE statement. -/
def bump (api_key day : String) (r : UsageRow) : UsageRow :=
  if usageMatch api_key day r then { r with count := r.count + 1 } else r

def increment_usage (d : DB) (api_key day : String) : DB × Int :=
  let d1 : DB :=
    match get_usage_row d api_key day with
    | some _ => d
    | none => { d with usage_counters := d.usage_counters ++ [⟨api_key, day, 0⟩] }
  let d2 : DB := { d1 with usage_counters := d1.usage_counters.map (bump api_key day) }
  match get_usage_row d2 api_key day with
  | some r => (d2, r.count)
  | none => (d2, 0)

/-- `get_limit_for_plan`: `PRO_LIMIT_PER_DAY if plan == "pro" else FREE_LIMIT_PER_DAY`. -/
def get_limit_for_plan (cfg : Config) (plan : String) : Int :=
  if plan == "pro" then cfg.PRO_LIMIT_PER_DAY else cfg.FREE_LIMIT_PER_DAY

/-- Python `row["plan"] or "free"`: `None` and the empty string are falsy. -/
def planOrFree : Option String → String
  | none => "free"
  | some s => if s == "" then "free" else s

/-- `require_active_and_rate_limit`.  Returns the state after the call
(the increment is committed before the 429 is raised) together with the
outcome. -/
def require_active_and_rate_limit (cfg : Config) (d : DB) (api_key day : String) :
    DB × Except HTTPError RateMeta :=
  match get_key_row d api_key with
  | none => (d, .error ⟨404, "Unknown api_key. Create one first."⟩)
  | some row =>
    if row.is_active ≠ 1 then
      (d, .error ⟨403, "API key is not active."⟩)
    else
      let plan := planOrFree row.plan
      let limit := get_limit_for_plan cfg plan
      let used := (increment_usage d api_key day).2
      let d1 := (increment_usage d api_key day).1
      if used > limit then
        (d1, .error ⟨429, "Daily limit exceeded: " ++ toString (used - 1) ++ "/" ++
          toString limit ++ " used. Upgrade to PRO."⟩)
      else
        (d1, .ok ⟨plan, used, limit⟩)

/-- The `/keys/create` route: inserts a freshly generated key (the random
`"key_" + token_urlsafe(24)` string is the `new_key` parameter) with a plain
`INSERT`; on a duplicate primary key SQLite raises `IntegrityError`, which
FastAPI surfaces as a 500 with no row written. -/
def create_api_key (d : DB) (new_key now : String) : DB × Except HTTPError String :=
  match get_key_row d new_key with
  | some _ => (d, .error ⟨500, "UNIQUE constraint failed: api_keys.api_key"⟩)
  | none =>
    ({ d with api_keys := d.api_keys ++ [⟨new_key, some "free", 1, now⟩] }, .ok new_key)

/-- The typed event produced by `stripe.Webhook.construct_event`: its
`type` and the `api_key` entry of the session metadata
(`(session.get("metadata") or {}).get("api_key")`). -/
structure StripeEvent where
  type : String
  metadata_api_key : Option String
deriving DecidableEq, Repr

/-- The `/stripe/webhook` route.  `verify` is the external collaborator
`stripe.Webhook.construct_event`: it returns `none` when verification
raises.  `secret` is `WEBHOOK_SECRET` (`""` when unconfigured, which is
falsy in `if not WEBHOOK_SECRET`).  On the actionable type the upgrade
runs only when the extracted `api_key` is truthy (present and nonempty). -/
def stripe_webhook (verify : String → Option String → String → Option StripeEvent)
    (secret : String) (d : DB) (payload : String) (sig : Option String) :
    DB × Except HTTPError Bool :=
  if secret == "" then
    (d, .error ⟨500, "STRIPE_WEBHOOK_SECRET is missing"⟩)
  else
    match verify payload sig secret with
    | none => (d, .error ⟨400, "Invalid webhook signature"⟩)
    | some event =>
      if event.type == "checkout.session.completed" then
        match event.metadata_api_key with
        | some k => if k ≠ "" then (upgrade_api_key_to_pro d k, .ok true) else (d, .ok true)
        | none => (d, .ok true)
      else
        (d, .ok true)

/-- The usage counter currently recorded for `(api_key, day)`; a missing
row counts as 0 (the row is created with count 0 on first increment). -/
def usageCount (d : DB) (api_key day : String) : Int :=
  match get_usage_row d api_key day with
  | some r => r.count
  | none => 0

/-- A deterministic `stripe.Webhook.construct_event` collaborator that
always produces the given result, used to instantiate `stripe_webhook`
at concrete inputs. -/
def constVerify (ev : Option StripeEvent) (_ : String) (_ : Option String) (_ : String) :
    Option StripeEvent :=
  ev

/-- Whether the store currently records `api_key` with plan `'pro'`. -/
def keyIsPro (d : DB) (api_key : String) : Bool :=
  match get_key_row d api_key with
  | some r => r.plan == some "pro"
  | none => false

/-- One invocation of any state-touching operation of the service.
Arguments that the source obtains from the outside world (the randomly
generated key, wall-clock timestamps, the current UTC day, the webhook
secret and the verification outcome) are carried as data of the
operation. -/
inductive Op where
  | createKey (new_key now : String)
  | ensureExists (api_key now : String)
  | getKey (api_key : String)
  | checkAndCount (cfg : Config) (api_key day : String)
  | upgradeToPro (api_key : String)
  | paymentEvent (event : Option StripeEvent) (secret payload : String) (sig : Option String)

/-- The state transition performed by one operation (`get_key_row` reads
but never writes, so `getKey` leaves the store unchanged). -/
def step (d : DB) : Op → DB
  | .createKey nk now => (create_api_key d nk now).1
  | .ensureExists k now => ensure_key_exists d k now
  | .getKey _ => d
  | .checkAndCount cfg k day => (require_active_and_rate_limit cfg d k day).1
  | .upgradeToPro k => upgrade_api_key_to_pro d k
  | .paymentEvent ev secret payload sig => (stripe_webhook (constVerify ev) secret d payload sig).1

/-- Run a sequence of operations from a starting store. -/
def run (d : DB) : List Op → DB
  | [] => d
  | op :: ops => run (step d op) ops

/-- Repeatedly invoke the quota check (the body of `/protected/ping`)
for the same key on the same day, threading the store through and
collecting every call's outcome in order. -/
def runCalls (cfg : Config) (api_key day : String) :
    Nat → DB → DB × List (Except HTTPError RateMeta)
  | 0, d => (d, [])
  | n + 1, d =>
    let p := require_active_and_rate_limit cfg d api_key day
    let q := runCalls cfg api_key day n p.1
    (q.1, p.2 :: q.2)

end ProApi

namespace ProApi

theorem find?_map_stable {α : Type} (f : α → α) (p : α → Bool) (h : ∀ a, p (f a) = p a) :
    ∀ l : List α, (l.map f).find? p = (l.find? p).map f := by
  intro l
  induction l with
  | nil => rfl
  | cons a l ih =>
    simp only [List.map_cons, List.find?_cons]
    rw [h a]
    cases hp : p a
    · simpa using ih
    · simp

theorem usageMatch_true (k day : String) (r : UsageRow) :
    usageMatch k day r = true ↔ r.api_key = k ∧ r.day = day := by
  simp [usageMatch]

theorem bump_of_match (k day : String) (r : UsageRow) (h : usageMatch k day r = true) :
    bump k day r = ⟨k, day, r.count + 1⟩ := by
  obtain ⟨h1, h2⟩ := (usageMatch_true k day r).mp h
  simp only [bump, h, if_true]
  rw [h1, h2]

theorem usageMatch_bump (k day k2 d2 : String) (r : UsageRow) :
    usageMatch k2 d2 (bump k day r) = usageMatch k2 d2 r := by
  simp only [bump]
  split <;> simp [usageMatch]

theorem keyMatch_setPro (k k2 : String) (r : KeyRow) :
    keyMatch k2 (setPro k r) = keyMatch k2 r := by
  simp only [setPro]
  split <;> simp [keyMatch]

theorem self_usageMatch (k day : String) (c : Int) :
    usageMatch k day ⟨k, day, c⟩ = true := by
  simp [usageMatch]

theorem increment_usage_spec (d : DB) (k day : String) :
    get_usage_row (increment_usage d k day).1 k day = some ⟨k, day, usageCount d k day + 1⟩ ∧
    (increment_usage d k day).2 = usageCount d k day + 1 ∧
    (increment_usage d k day).1.api_keys = d.api_keys := by
  cases hrow : get_usage_row d k day with
  | some r =>
    have hrow2 : d.usage_counters.find? (usageMatch k day) = some r := hrow
    have hp : usageMatch k day r = true := List.find?_some hrow2
    have hfind2 : get_usage_row { d with usage_counters := d.usage_counters.map (bump k day) }
        k day = some (bump k day r) := by
      show (d.usage_counters.map (bump k day)).find? (usageMatch k day) =
        some (bump k day r)
      rw [find?_map_stable (bump k day) (usageMatch k day) (usageMatch_bump k day k day),
        hrow2, Option.map_some']
    rw [bump_of_match k day r hp] at hfind2
    have hcount : usageCount d k day = r.count := by
      simp only [usageCount, hrow]
    simp only [increment_usage, hrow, hfind2, hcount]
    exact ⟨trivial, trivial, trivial⟩
  | none =>
    have hrow2 : d.usage_counters.find? (usageMatch k day) = none := hrow
    have hb : bump k day ⟨k, day, 0⟩ = ⟨k, day, 1⟩ := by
      rw [bump_of_match k day ⟨k, day, 0⟩ (self_usageMatch k day 0)]
      simp
    have hfind2 : get_usage_row
        { d with usage_counters :=
            (d.usage_counters ++ [(⟨k, day, 0⟩ : UsageRow)]).map (bump k day) }
        k day = some ⟨k, day, 1⟩ := by
      show ((d.usage_counters ++ [(⟨k, day, 0⟩ : UsageRow)]).map (bump k day)).find?
        (usageMatch k day) = some ⟨k, day, 1⟩
      rw [List.map_append, List.find?_append,
        find?_map_stable (bump k day) (usageMatch k day) (usageMatch_bump k day k day), hrow2]
      simp only [Option.map_none', Option.none_or, List.map_cons, List.map_nil,
        List.find?_cons, hb, self_usageMatch]
    have hcount : usageCount d k day = 0 := by
      simp only [usageCount, hrow]
    simp only [increment_usage, hrow, hfind2, hcount, zero_add]
    exact ⟨trivial, trivial, trivial⟩

theorem increment_usage_fst (d : DB) (k day : String) :
    (increment_usage d k day).1 =
      { d with usage_counters :=
          (match get_usage_row d k day with
           | some _ => d.usage_counters
           | none => d.usage_counters ++ [(⟨k, day, 0⟩ : UsageRow)]).map (bump k day) } := by
  unfold increment_usage
  cases hrow : get_usage_row d k day <;> simp only [hrow] <;> split <;> rfl

theorem increment_usage_other (d : DB) (k day k2 d2 : String) (h : ¬(k2 = k ∧ d2 = day)) :
    get_usage_row (increment_usage d k day).1 k2 d2 = get_usage_row d k2 d2 := by
  have hmap : ∀ l : List UsageRow, (l.map (bump k day)).find? (usageMatch k2 d2) =
      l.find? (usageMatch k2 d2) := by
    intro l
    rw [find?_map_stable (bump k day) (usageMatch k2 d2) (usageMatch_bump k day k2 d2)]
    cases hl : l.find? (usageMatch k2 d2) with
    | none => rfl
    | some r =>
      have hp : usageMatch k2 d2 r = true := List.find?_some hl
      obtain ⟨h1, h2⟩ := (usageMatch_true k2 d2 r).mp hp
      have hfalse : usageMatch k day r = false := by
        rw [← Bool.not_eq_true]
        intro hc
        obtain ⟨h3, h4⟩ := (usageMatch_true k day r).mp hc
        exact h ⟨h1.symm.trans h3, h2.symm.trans h4⟩
      rw [Option.map_some']
      have : bump k day r = r := by simp [bump, hfalse]
      rw [this]
  rw [increment_usage_fst]
  cases hrow : get_usage_row d k day with
  | some r =>
    show (d.usage_counters.map (bump k day)).find? (usageMatch k2 d2) = _
    exact hmap d.usage_counters
  | none =>
    show ((d.usage_counters ++ [(⟨k, day, 0⟩ : UsageRow)]).map (bump k day)).find?
      (usageMatch k2 d2) = _
    rw [List.map_append, List.find?_append, hmap d.usage_counters]
    have hnew : usageMatch k2 d2 (bump k day ⟨k, day, 0⟩) = false := by
      rw [usageMatch_bump]
      rw [← Bool.not_eq_true]
      intro hc
      obtain ⟨h3, h4⟩ := (usageMatch_true k2 d2 ⟨k, day, 0⟩).mp hc
      exact h ⟨h3.symm, h4.symm⟩
    simp only [List.map_cons, List.map_nil, List.find?_cons, hnew, List.find?_nil,
      Option.or_none]
    rfl

theorem get_key_row_upgrade (d : DB) (k k2 : String) :
    get_key_row (upgrade_api_key_to_pro d k) k2 = (get_key_row d k2).map (setPro k) := by
  show (d.api_keys.map (setPro k)).find? (keyMatch k2) = _
  rw [find?_map_stable (setPro k) (keyMatch k2) (keyMatch_setPro k k2)]
  rfl

theorem setPro_of_match (k : String) (r : KeyRow) (h : keyMatch k r = true) :
    setPro k r = { r with plan := some "pro", is_active := 1 } := by
  simp only [setPro, h, if_true]

theorem setPro_setPro (k : String) (r : KeyRow) : setPro k (setPro k r) = setPro k r := by
  by_cases h : keyMatch k r = true
  · rw [setPro_of_match k r h]
    have h2 : keyMatch k ({ r with plan := some "pro", is_active := 1 } : KeyRow) = true := by
      simpa [keyMatch] using h
    rw [setPro_of_match _ _ h2]
  · have hf : keyMatch k r = false := eq_false_of_ne_true h
    simp [setPro, hf]

theorem upgrade_idem (d : DB) (k : String) :
    upgrade_api_key_to_pro (upgrade_api_key_to_pro d k) k = upgrade_api_key_to_pro d k := by
  simp only [upgrade_api_key_to_pro, List.map_map]
  congr 1
  exact List.map_congr_left (fun r _ => setPro_setPro k r)

theorem get_key_row_append (d : DB) (k : String) (l2 : List KeyRow) (r : KeyRow)
    (h : get_key_row d k = some r) :
    (d.api_keys ++ l2).find? (keyMatch k) = some r := by
  have h2 : d.api_keys.find? (keyMatch k) = some r := h
  rw [List.find?_append, h2]
  rfl

theorem require_fst_api_keys (cfg : Config) (d : DB) (k day : String) :
    (require_active_and_rate_limit cfg d k day).1.api_keys = d.api_keys := by
  cases hrow : get_key_row d k with
  | none => simp only [require_active_and_rate_limit, hrow]
  | some row =>
    simp only [require_active_and_rate_limit, hrow]
    by_cases hact : row.is_active = 1
    · rw [if_neg (fun hc => hc hact)]
      split <;> exact (increment_usage_spec d k day).2.2
    · rw [if_pos hact]

theorem stripe_webhook_fst (verify : String → Option String → String → Option StripeEvent)
    (secret : String) (d : DB) (payload : String) (sig : Option String) :
    (stripe_webhook verify secret d payload sig).1 = d ∨
    ∃ kk, (stripe_webhook verify secret d payload sig).1 = upgrade_api_key_to_pro d kk := by
  unfold stripe_webhook
  split
  · exact .inl rfl
  · split
    · exact .inl rfl
    · split
      · split
        · split
          · exact .inr ⟨_, rfl⟩
          · exact .inl rfl
        · exact .inl rfl
      · exact .inl rfl

theorem upgrade_preserves_pro (d : DB) (k k2 : String) (h : keyIsPro d k = true) :
    keyIsPro (upgrade_api_key_to_pro d k2) k = true := by
  cases hk : get_key_row d k with
  | none => simp only [keyIsPro, hk, Bool.false_eq_true] at h
  | some r =>
    simp only [keyIsPro, hk] at h
    simp only [keyIsPro, get_key_row_upgrade, hk, Option.map_some']
    unfold setPro
    split
    · simp
    · exact h

theorem step_preserves_pro (d : DB) (k : String) (op : Op) (h : keyIsPro d k = true) :
    keyIsPro (step d op) k = true := by
  cases hk : get_key_row d k with
  | none => simp only [keyIsPro, hk, Bool.false_eq_true] at h
  | some r =>
  have hk2 : d.api_keys.find? (keyMatch k) = some r := hk
  have hpro : (r.plan == some "pro") = true := by simpa only [keyIsPro, hk] using h
  cases op with
  | createKey nk now =>
    show keyIsPro (create_api_key d nk now).1 k = true
    cases hnk : get_key_row d nk with
    | some r2 => simpa only [create_api_key, hnk, keyIsPro, hk] using h
    | none =>
      simp only [create_api_key, hnk, keyIsPro]
      have : get_key_row
          { d with api_keys := d.api_keys ++ [(⟨nk, some "free", 1, now⟩ : KeyRow)] } k =
          some r := get_key_row_append d k _ r hk
      rw [this]
      exact hpro
  | ensureExists k2 now =>
    show keyIsPro (ensure_key_exists d k2 now) k = true
    cases hnk : get_key_row d k2 with
    | some r2 => simpa only [ensure_key_exists, hnk, keyIsPro, hk] using h
    | none =>
      simp only [ensure_key_exists, hnk, keyIsPro]
      have : get_key_row
          { d with api_keys := d.api_keys ++ [(⟨k2, some "free", 1, now⟩ : KeyRow)] } k =
          some r := get_key_row_append d k _ r hk
      rw [this]
      exact hpro
  | getKey k2 => exact h
  | checkAndCount cfg k2 day =>
    show keyIsPro (require_active_and_rate_limit cfg d k2 day).1 k = true
    have ha := require_fst_api_keys cfg d k2 day
    simp only [keyIsPro, get_key_row, ha]
    rw [hk2]
    exact hpro
  | upgradeToPro k2 => exact upgrade_preserves_pro d k k2 h
  | paymentEvent ev secret payload sig =>
    show keyIsPro (stripe_webhook (constVerify ev) secret d payload sig).1 k = true
    rcases stripe_webhook_fst (constVerify ev) secret d payload sig with hw | ⟨kk, hw⟩
    · rw [hw]; exact h
    · rw [hw]; exact upgrade_preserves_pro d k kk h

theorem run_preserves_pro (ops : List Op) :
    ∀ d : DB, ∀ k : String, keyIsPro d k = true → keyIsPro (run d ops) k = true := by
  induction ops with
  | nil => intro d k h; exact h
  | cons op ops ih =>
    intro d k h
    exact ih (step d op) k (step_preserves_pro d k op h)

end ProApi

namespace ProApi

/-- Claim C1: with FREE_LIMIT_PER_DAY configured to 25, a fresh active key on
plan free succeeds on each of its first 25 quota checks with used_today
running 1, 2, ..., 25 in order, and the 26th check fails with the 429 quota
error whose message reports used-1 = 25 and limit = 25. -/
theorem free_limit_quota_scenario :
    (runCalls ⟨25, 10000⟩ "key_fresh" "2026-01-01" 26
        ⟨[⟨"key_fresh", some "free", 1, "2026-01-01T00:00:00+00:00"⟩], []⟩).2 =
      ((List.range 25).map (fun i => Except.ok ⟨"free", (i : Int) + 1, 25⟩)) ++
        [Except.error ⟨429, "Daily limit exceeded: 25/25 used. Upgrade to PRO."⟩] := by
  rfl

/-- Claim C2: whenever the quota check fails with QuotaExceeded (status 429),
the usage counter for (key, today) after the call is exactly one greater than
before the call — the increment performed before the limit comparison is
never rolled back on denial. -/
theorem quota_denied_increment_persists (cfg : Config) (d : DB) (k day : String)
    (e : HTTPError) (herr : (require_active_and_rate_limit cfg d k day).2 = .error e)
    (h429 : e.status = 429) :
    usageCount (require_active_and_rate_limit cfg d k day).1 k day =
      usageCount d k day + 1 := by
  cases hrow : get_key_row d k with
  | none =>
    simp only [require_active_and_rate_limit, hrow] at herr
    cases herr
    simp at h429
  | some row =>
    simp only [require_active_and_rate_limit, hrow] at herr ⊢
    by_cases hact : row.is_active = 1
    · rw [if_neg (fun hc => hc hact)] at herr ⊢
      have hspec := increment_usage_spec d k day
      have hgoal : usageCount (increment_usage d k day).1 k day = usageCount d k day + 1 := by
        simp only [usageCount, hspec.1]
      split <;> exact hgoal
    · rw [if_pos hact] at herr
      cases herr
      simp at h429

/-- Witness for claim C2: with limit 1 and one prior use, the denied second
call still leaves the counter one higher. -/
theorem quota_denied_increment_persists_witness :
    usageCount (require_active_and_rate_limit ⟨1, 10000⟩
        ⟨[⟨"k", some "free", 1, "t"⟩], [⟨"k", "2026-01-01", 1⟩]⟩ "k" "2026-01-01").1
        "k" "2026-01-01" =
      usageCount ⟨[⟨"k", some "free", 1, "t"⟩], [⟨"k", "2026-01-01", 1⟩]⟩
        "k" "2026-01-01" + 1 :=
  quota_denied_increment_persists ⟨1, 10000⟩
    ⟨[⟨"k", some "free", 1, "t"⟩], [⟨"k", "2026-01-01", 1⟩]⟩ "k" "2026-01-01"
    ⟨429, "Daily limit exceeded: 1/1 used. Upgrade to PRO."⟩ (by rfl) rfl

/-- Claim C3: UpgradeToPro is idempotent — applying it twice gives the same
end state as once; for an existing key the end state has plan pro and
is_active 1; and delivering the same payload to the webhook twice (with the
same deterministic verification outcome) leaves the same store as one
delivery. -/
theorem upgrade_and_webhook_idempotent
    (verify : String → Option String → String → Option StripeEvent)
    (secret payload : String) (sig : Option String) (d : DB) (k : String) (row : KeyRow)
    (hrow : get_key_row d k = some row) :
    upgrade_api_key_to_pro (upgrade_api_key_to_pro d k) k = upgrade_api_key_to_pro d k ∧
    get_key_row (upgrade_api_key_to_pro d k) k =
      some { row with plan := some "pro", is_active := 1 } ∧
    (stripe_webhook verify secret (stripe_webhook verify secret d payload sig).1 payload
        sig).1 =
      (stripe_webhook verify secret d payload sig).1 := by
  refine ⟨upgrade_idem d k, ?_, ?_⟩
  · have hrow2 : d.api_keys.find? (keyMatch k) = some row := hrow
    have hp : keyMatch k row = true := List.find?_some hrow2
    rw [get_key_row_upgrade, hrow, Option.map_some', setPro_of_match k row hp]
  · cases hs : secret == "" with
    | true => simp [stripe_webhook, hs]
    | false =>
      cases hv : verify payload sig secret with
      | none => simp [stripe_webhook, hs, hv]
      | some ev =>
        cases ht : ev.type == "checkout.session.completed" with
        | false => simp [stripe_webhook, hs, hv, ht]
        | true =>
          cases hm : ev.metadata_api_key with
          | none => simp [stripe_webhook, hs, hv, ht, hm]
          | some kk =>
            by_cases hk : kk = ""
            · simp [stripe_webhook, hs, hv, ht, hm, hk]
            · simp [stripe_webhook, hs, hv, ht, hm, hk, upgrade_idem]

/-- Witness for claim C3 at a concrete store, key and checkout payload. -/
theorem upgrade_and_webhook_idempotent_witness :
    upgrade_api_key_to_pro
        (upgrade_api_key_to_pro ⟨[⟨"k", some "free", 1, "t"⟩], []⟩ "k") "k" =
      upgrade_api_key_to_pro ⟨[⟨"k", some "free", 1, "t"⟩], []⟩ "k" ∧
    get_key_row (upgrade_api_key_to_pro ⟨[⟨"k", some "free", 1, "t"⟩], []⟩ "k") "k" =
      some ⟨"k", some "pro", 1, "t"⟩ ∧
    (stripe_webhook (constVerify (some ⟨"checkout.session.completed", some "k"⟩)) "whsec_x"
        (stripe_webhook (constVerify (some ⟨"checkout.session.completed", some "k"⟩))
          "whsec_x" ⟨[⟨"k", some "free", 1, "t"⟩], []⟩ "payload" (some "sig")).1
        "payload" (some "sig")).1 =
      (stripe_webhook (constVerify (some ⟨"checkout.session.completed", some "k"⟩))
        "whsec_x" ⟨[⟨"k", some "free", 1, "t"⟩], []⟩ "payload" (some "sig")).1 :=
  upgrade_and_webhook_idempotent
    (constVerify (some ⟨"checkout.session.completed", some "k"⟩)) "whsec_x" "payload"
    (some "sig") ⟨[⟨"k", some "free", 1, "t"⟩], []⟩ "k" ⟨"k", some "free", 1, "t"⟩ rfl

/-- Claim C4: for a key whose record has is_active different from 1, the quota
check fails with the 403 Forbidden error and short-circuits before
incrementing — the whole store, and in particular the usage row for
(key, today), is unchanged. -/
theorem inactive_key_short_circuit (cfg : Config) (d : DB) (k day : String) (row : KeyRow)
    (hrow : get_key_row d k = some row) (hinact : row.is_active ≠ 1) :
    (require_active_and_rate_limit cfg d k day).1 = d ∧
    (require_active_and_rate_limit cfg d k day).2 =
      .error ⟨403, "API key is not active."⟩ ∧
    get_usage_row (require_active_and_rate_limit cfg d k day).1 k day =
      get_usage_row d k day := by
  simp only [require_active_and_rate_limit, hrow, if_pos hinact]
  refine ⟨?_, ?_, ?_⟩ <;> trivial

/-- Witness for claim C4: an inactive key with spare quota is still refused
and nothing is written. -/
theorem inactive_key_short_circuit_witness :
    (require_active_and_rate_limit ⟨25, 10000⟩ ⟨[⟨"k", some "free", 0, "t"⟩], []⟩
        "k" "2026-01-01").1 = ⟨[⟨"k", some "free", 0, "t"⟩], []⟩ ∧
    (require_active_and_rate_limit ⟨25, 10000⟩ ⟨[⟨"k", some "free", 0, "t"⟩], []⟩
        "k" "2026-01-01").2 = .error ⟨403, "API key is not active."⟩ ∧
    get_usage_row (require_active_and_rate_limit ⟨25, 10000⟩
        ⟨[⟨"k", some "free", 0, "t"⟩], []⟩ "k" "2026-01-01").1 "k" "2026-01-01" =
      get_usage_row ⟨[⟨"k", some "free", 0, "t"⟩], []⟩ "k" "2026-01-01" :=
  inactive_key_short_circuit ⟨25, 10000⟩ ⟨[⟨"k", some "free", 0, "t"⟩], []⟩ "k"
    "2026-01-01" ⟨"k", some "free", 0, "t"⟩ rfl (by decide)

/-- Claim C5: when the webhook secret is unconfigured (empty) or signature
verification fails, the webhook rejects the request with an error and the
store is completely unchanged, whatever the payload. -/
theorem invalid_signature_no_mutation
    (verify : String → Option String → String → Option StripeEvent)
    (secret payload : String) (sig : Option String) (d : DB)
    (h : secret = "" ∨ verify payload sig secret = none) :
    (stripe_webhook verify secret d payload sig).1 = d ∧
    ∃ e, (stripe_webhook verify secret d payload sig).2 = Except.error e := by
  rcases h with h | h
  · subst h
    exact ⟨rfl, ⟨⟨500, "STRIPE_WEBHOOK_SECRET is missing"⟩, rfl⟩⟩
  · by_cases hs : secret = ""
    · subst hs
      exact ⟨rfl, ⟨⟨500, "STRIPE_WEBHOOK_SECRET is missing"⟩, rfl⟩⟩
    · have hs2 : (secret == "") = false := by simp [hs]
      simp only [stripe_webhook, hs2, if_false, h]
      exact ⟨rfl, ⟨⟨400, "Invalid webhook signature"⟩, rfl⟩⟩

/-- Witness for claim C5: failed verification with a configured secret leaves
a one-key store untouched. -/
theorem invalid_signature_no_mutation_witness :
    (stripe_webhook (constVerify none) "whsec_x" ⟨[⟨"k", some "free", 1, "t"⟩], []⟩
        "payload" (some "sig")).1 = ⟨[⟨"k", some "free", 1, "t"⟩], []⟩ :=
  (invalid_signature_no_mutation (constVerify none) "whsec_x" "payload" (some "sig")
    ⟨[⟨"k", some "free", 1, "t"⟩], []⟩ (Or.inr rfl)).1

/-- Claim C6: plan upgrades are monotonic — once a key's stored plan is pro,
it stays pro under any sequence of the service's operations; moreover
EnsureExists and CreateKey never overwrite an existing record. -/
theorem plan_upgrade_monotone (d : DB) (k : String) (ops : List Op)
    (h : keyIsPro d k = true) :
    keyIsPro (run d ops) k = true ∧
    (∀ (k2 now : String) (r : KeyRow), get_key_row d k2 = some r →
      get_key_row (ensure_key_exists d k2 now) k2 = some r ∧
      get_key_row (create_api_key d k2 now).1 k2 = some r) := by
  refine ⟨run_preserves_pro ops d k h, ?_⟩
  intro k2 now r hr
  constructor
  · simp only [ensure_key_exists, hr]
  · simp only [create_api_key, hr]

/-- Witness for claim C6: a pro key stays pro across a sequence exercising
every operation. -/
theorem plan_upgrade_monotone_witness :
    keyIsPro (run ⟨[⟨"kpro", some "pro", 1, "t"⟩], []⟩
      [Op.ensureExists "kpro" "t2", Op.createKey "knew" "t3",
       Op.checkAndCount ⟨25, 10000⟩ "kpro" "2026-01-01", Op.upgradeToPro "kpro",
       Op.paymentEvent (some ⟨"checkout.session.completed", some "kx"⟩) "whsec_x" "p" none,
       Op.getKey "kpro"]) "kpro" = true :=
  (plan_upgrade_monotone ⟨[⟨"kpro", some "pro", 1, "t"⟩], []⟩ "kpro"
    [Op.ensureExists "kpro" "t2", Op.createKey "knew" "t3",
     Op.checkAndCount ⟨25, 10000⟩ "kpro" "2026-01-01", Op.upgradeToPro "kpro",
     Op.paymentEvent (some ⟨"checkout.session.completed", some "kx"⟩) "whsec_x" "p" none,
     Op.getKey "kpro"] rfl).1

/-- Claim C8 as stated fails on the code: UpgradeToPro on a key that is not
in the store is a bare UPDATE that matches no row, so after the call the key
still does not exist (here on the empty store). -/
theorem upgrade_missing_key_not_inserted :
    get_key_row (upgrade_api_key_to_pro ⟨[], []⟩ "key_missing") "key_missing" = none := by
  rfl

/-- Claim C8 amended: for a key not present in the store, UpgradeToPro
succeeds without raising but is a no-op — the store is unchanged and the key
still does not exist; no EnsureExists semantics are implied. -/
theorem upgrade_missing_key_noop (d : DB) (k : String) (h : get_key_row d k = none) :
    upgrade_api_key_to_pro d k = d := by
  have h2 : d.api_keys.find? (keyMatch k) = none := h
  have hmap : d.api_keys.map (setPro k) = d.api_keys := by
    have h1 : ∀ r ∈ d.api_keys, setPro k r = id r := by
      intro r hr
      have h3 := List.find?_eq_none.mp h2 r hr
      have hf : keyMatch k r = false := by simpa using h3
      simp [setPro, hf]
    exact (List.map_congr_left h1).trans (List.map_id _)
  show ({ d with api_keys := d.api_keys.map (setPro k) } : DB) = d
  rw [hmap]

/-- Witness for amended claim C8: upgrading a missing key leaves the empty
store exactly as it was. -/
theorem upgrade_missing_key_noop_witness :
    upgrade_api_key_to_pro ⟨[], []⟩ "key_missing" = (⟨[], []⟩ : DB) :=
  upgrade_missing_key_noop ⟨[], []⟩ "key_missing" rfl

/-- Claim C9: counters are scoped per (key, day) with no carry-over — for an
active key whose counter on day D equals its (positive) limit, a quota check
on a fresh day succeeds with used_today 1, and the counter of every other
(key, day) pair is left unchanged by the call. -/
theorem day_scoped_counters (cfg : Config) (d : DB) (k dayD dayNext k2 day2 : String)
    (row : KeyRow) (hrow : get_key_row d k = some row) (hact : row.is_active = 1)
    (hlim : 1 ≤ get_limit_for_plan cfg (planOrFree row.plan))
    (hD : usageCount d k dayD = get_limit_for_plan cfg (planOrFree row.plan))
    (hfresh : get_usage_row d k dayNext = none)
    (hne : ¬(k2 = k ∧ day2 = dayNext)) :
    (require_active_and_rate_limit cfg d k dayNext).2 =
      .ok ⟨planOrFree row.plan, 1, get_limit_for_plan cfg (planOrFree row.plan)⟩ ∧
    get_usage_row (require_active_and_rate_limit cfg d k dayNext).1 k2 day2 =
      get_usage_row d k2 day2 := by
  have hspec := increment_usage_spec d k dayNext
  have hcount0 : usageCount d k dayNext = 0 := by simp only [usageCount, hfresh]
  have hused : (increment_usage d k dayNext).2 = 1 := by
    rw [hspec.2.1, hcount0, zero_add]
  have hnotgt : ¬((1 : Int) > get_limit_for_plan cfg (planOrFree row.plan)) := by
    omega
  have hact2 : ¬(row.is_active ≠ 1) := fun hc => hc hact
  simp only [require_active_and_rate_limit, hrow, if_neg hact2, hused, if_neg hnotgt]
  exact ⟨trivial, increment_usage_other d k dayNext k2 day2 hne⟩

/-- Witness for claim C9: a key at its limit 2 on 2026-01-01 succeeds with
used_today 1 on 2026-01-02, and the old day's counter is untouched. -/
theorem day_scoped_counters_witness :
    (require_active_and_rate_limit ⟨2, 10000⟩
        ⟨[⟨"k", some "free", 1, "t"⟩], [⟨"k", "2026-01-01", 2⟩]⟩ "k" "2026-01-02").2 =
      .ok ⟨"free", 1, 2⟩ ∧
    get_usage_row (require_active_and_rate_limit ⟨2, 10000⟩
        ⟨[⟨"k", some "free", 1, "t"⟩], [⟨"k", "2026-01-01", 2⟩]⟩ "k" "2026-01-02").1
        "k" "2026-01-01" =
      get_usage_row ⟨[⟨"k", some "free", 1, "t"⟩], [⟨"k", "2026-01-01", 2⟩]⟩
        "k" "2026-01-01" :=
  day_scoped_counters ⟨2, 10000⟩ ⟨[⟨"k", some "free", 1, "t"⟩], [⟨"k", "2026-01-01", 2⟩]⟩
    "k" "2026-01-01" "2026-01-02" "k" "2026-01-01" ⟨"k", some "free", 1, "t"⟩
    rfl rfl (by decide) rfl rfl (by decide)

/-- Claim C10: any stored plan other than exactly the string pro (including
the empty string and NULL) resolves the daily limit to FREE_LIMIT_PER_DAY;
an empty or NULL plan is reported as free, and a successful quota check
reports the free limit and the degraded plan rather than raising. -/
theorem unknown_plan_defaults_to_free (cfg : Config) (d : DB) (k day : String)
    (row : KeyRow) (hrow : get_key_row d k = some row)
    (hplan : row.plan ≠ some "pro") :
    get_limit_for_plan cfg (planOrFree row.plan) = cfg.FREE_LIMIT_PER_DAY ∧
    ((row.plan = none ∨ row.plan = some "") → planOrFree row.plan = "free") ∧
    (∀ m : RateMeta, (require_active_and_rate_limit cfg d k day).2 = .ok m →
      m.limit_today = cfg.FREE_LIMIT_PER_DAY ∧ m.plan = planOrFree row.plan) := by
  have hpf : planOrFree row.plan ≠ "pro" := by
    cases hp : row.plan with
    | none => decide
    | some s =>
      by_cases hs : s = ""
      · rw [hs]; decide
      · have hs2 : (s == "") = false := by simp [hs]
        simp only [planOrFree, hs2, Bool.false_eq_true, if_false]
        intro hcon
        exact hplan (by rw [hp, hcon])
  have hlim1 : get_limit_for_plan cfg (planOrFree row.plan) = cfg.FREE_LIMIT_PER_DAY := by
    have : (planOrFree row.plan == "pro") = false := by simp [hpf]
    simp [get_limit_for_plan, this]
  refine ⟨hlim1, ?_, ?_⟩
  · intro h
    rcases h with h | h <;> simp [planOrFree, h]
  · intro m hm
    simp only [require_active_and_rate_limit, hrow] at hm
    by_cases hact : row.is_active = 1
    · rw [if_neg (fun hc => hc hact)] at hm
      split at hm
      · cases hm
      · cases hm
        exact ⟨hlim1, rfl⟩
    · rw [if_pos hact] at hm
      cases hm

/-- Witness for claim C10: an unrecognized plan string resolves to the free
limit. -/
theorem unknown_plan_defaults_to_free_witness :
    get_limit_for_plan ⟨25, 10000⟩ (planOrFree (some "gold")) = 25 :=
  (unknown_plan_defaults_to_free ⟨25, 10000⟩ ⟨[⟨"k", some "gold", 1, "t"⟩], []⟩ "k"
    "2026-01-01" ⟨"k", some "gold", 1, "t"⟩ rfl (by decide)).1

end ProApi
